import Mathlib

/-!
Formal model of the two HTTP endpoints of the TikTok downloader service
(src/api/download.py and src/api/tiktok.py).

Pure helper functions from the Python standard library (str.startswith,
os.path.basename, os.path.join) are embedded directly.  The effectful
request handlers are embedded as trace-producing functions over explicit
oracles describing the environment (the extractor run, the upstream HTTP
fetch, whether os.remove raises), with the surrounding framework
semantics (Starlette FileResponse / StreamingResponse send order, FastAPI
required-query validation) made explicit in the trace.
-/

set_option autoImplicit false

/-- Embedding of Python str.startswith: the candidate is a character-list
prefix of the string. -/
def py_startswith (s pre : String) : Bool :=
  pre.data.isPrefixOf s.data

/-- Characters of a path strictly after its last slash; helper for the
embedding of os.path.basename. -/
def afterLastSlash : List Char → List Char
  | [] => []
  | c :: rest =>
    if c = '/' ∨ '/' ∈ rest then afterLastSlash rest else c :: rest

/-- Embedding of os.path.basename on POSIX paths: the suffix after the
last slash (empty when the path ends in a slash). -/
def py_basename (p : String) : String :=
  ⟨afterLastSlash p.data⟩

/-- Embedding of os.path.join (POSIX, two arguments): an absolute second
component replaces the first; otherwise the components are joined with a
slash unless the first already ends in one or is empty. -/
def py_join (a b : String) : String :=
  if b.data.head? = some '/' then b
  else if a = "" ∨ a.data.getLast? = some '/' then a ++ b
  else a ++ "/" ++ b

/-- tempfile.gettempdir() in the Vercel runtime; the source comments note
that /tmp is the writable location. -/
def TEMP_DIR : String := "/tmp"

/-- State transition of FilenameCapturePP.run (src/api/download.py lines
25-35): the filepath reported in the info dict is captured when truthy,
and a captured name not starting with the designated directory is
rewritten to the directory joined with its basename.  Arguments: the
directory, the previous value of self.filename, and info.get with the
filepath key.  Returns the new self.filename. -/
def filenameCaptureRun (directory : String) (prevFilename : Option String)
    (infoFilepath : Option String) : Option String :=
  let f1 : Option String :=
    match infoFilepath with
    | some p => if p = "" then prevFilename else some p
    | none => prevFilename
  match f1 with
  | none => none
  | some f =>
    if f ≠ "" ∧ py_startswith f directory = false then
      some (py_join directory (py_basename f))
    else
      some f

/-- The output template built in perform_download (src/api/download.py
line 55).  Despite the comment in the source claiming a uuid in the name,
the template holds only the title and ext fields. -/
def temp_outtmpl : String :=
  py_join TEMP_DIR "tiktok_dl_%(title)s.%(ext)s"

/-- The concrete output path the extractor produces from the template by
substituting the video title and extension.  It depends on nothing but
the video metadata: no per-request token appears. -/
def resolvedOutputPath (title ext : String) : String :=
  py_join TEMP_DIR ("tiktok_dl_" ++ title ++ "." ++ ext)

/-- An incoming download request: a request identity plus the metadata of
the video the URL resolves to. -/
structure DlRequest where
  id : Nat
  title : String
  ext : String
deriving DecidableEq

/-- The temporary path a given request ends up writing to, per the output
template of perform_download. -/
def requestTempPath (r : DlRequest) : String :=
  resolvedOutputPath r.title r.ext

/-- Oracle for one run of ydl.download inside perform_download: either the
extractor raises (having possibly created partial files on disk), or it
completes, leaving the post-processor capture state and the files present
on disk afterwards. -/
inductive ExtractionOutcome where
  | raises (msg : String) (filesOnDisk : List String)
  | completes (captured : Option String) (filesOnDisk : List String)
deriving DecidableEq

/-- The value of capture_pp.filename read by perform_download after the
run (meaningful only when the run completes). -/
def capturedFilename : ExtractionOutcome → Option String
  | .raises _ _ => none
  | .completes c _ => c

/-- The files present on disk after the extractor run. -/
def filesAfter : ExtractionOutcome → List String
  | .raises _ fs => fs
  | .completes _ fs => fs

/-- Message of the exception raised when the captured path is falsy or the
file is absent (src/api/download.py line 90). -/
def missingFileError : String :=
  "Download succeeded but final file path could not be determined or file was not found."

/-- Embedding of perform_download (src/api/download.py lines 46-97) over
the extractor oracle: any exception is wrapped in the generic prefix of
line 97; on completion the captured filename is checked for truthiness
and on-disk existence before being returned. -/
def perform_download : ExtractionOutcome → Except String String
  | .raises msg _ => .error ("Failed to download URL. Detail: " ++ msg)
  | .completes none _ => .error ("Failed to download URL. Detail: " ++ missingFileError)
  | .completes (some p) fs =>
    if p = "" ∨ p ∉ fs then
      .error ("Failed to download URL. Detail: " ++ missingFileError)
    else
      .ok p

/-- Chunk size passed to response.iter_content in get_video_stream
(src/api/tiktok.py line 43). -/
def stream_chunk_size : Nat := 8192

/-- Arguments of the requests.get call in get_video_stream. -/
structure RequestsGetCall where
  url : String
  stream : Bool
  timeout : Nat
deriving DecidableEq

/-- The requests.get call made by get_video_stream (src/api/tiktok.py
line 33): streaming enabled, 30 second timeout. -/
def stream_request (url : String) : RequestsGetCall :=
  ⟨url, true, 30⟩

/-- Embedding of response.iter_content(chunk_size): the body split into
consecutive chunks of the given size, the final chunk possibly shorter.
The zero-size guard is a modelling artifact; the source always passes
8192. -/
def iterContent (cs : Nat) (body : List Nat) : List (List Nat) :=
  if h : cs = 0 ∨ body = [] then []
  else body.take cs :: iterContent cs (body.drop cs)
termination_by body.length
decreasing_by
  push_neg at h
  rw [List.length_drop]
  have hb : 0 < body.length := List.length_pos.mpr h.2
  omega

/-- Concatenation of a chunk list back into a byte body. -/
def concatChunks : List (List Nat) → List Nat
  | [] => []
  | c :: rest => c ++ concatChunks rest

/-- Boolean well-formedness of a chunk list for a given chunk size: every
chunk is nonempty and at most the chunk size, and every chunk before the
last is exactly the chunk size. -/
def chunkSizesOk (cs : Nat) : List (List Nat) → Bool
  | [] => true
  | c :: rest =>
    decide (0 < c.length) && decide (c.length ≤ cs) &&
      (decide (rest = []) || decide (c.length = cs)) && chunkSizesOk cs rest

/-- Oracle for the upstream fetch performed by get_video_stream: either
requests.get raises a requests.exceptions.RequestException with the given
text, or it yields a response with a status code and a byte body. -/
inductive FetchOutcome where
  | requestError (msg : String)
  | ok (status : Nat) (body : List Nat)
deriving DecidableEq

/-- What iterating the get_video_stream generator produces: either the
chunk sequence, or an HTTPException with a status and detail raised
during iteration. -/
inductive StreamResult where
  | chunks (cs : List (List Nat))
  | httpError (status : Nat) (detail : String)
deriving DecidableEq

/-- str() of a Starlette HTTPException: the status code, a colon and the
detail. -/
def http_exception_str (status : Nat) (detail : String) : String :=
  toString status ++ ": " ++ detail

/-- Embedding of the get_video_stream generator body (src/api/tiktok.py
lines 14-54) over the fetch oracle.  A RequestException is caught by the
first except clause and re-raised as a 500 embedding the exception text.
A non-200 status triggers the HTTPException(400, ...) of line 37, but
HTTPException is not a RequestException, so it is caught by the second
except clause and re-raised as a 500 whose detail embeds the str() of the
inner exception.  A 200 status yields the body in chunks. -/
def get_video_stream (o : FetchOutcome) : StreamResult :=
  match o with
  | .requestError e =>
    .httpError 500 ("An external request error occurred: " ++ e)
  | .ok st body =>
    if st ≠ 200 then
      .httpError 500 ("An unexpected internal error occurred: " ++
        http_exception_str 400 ("Failed to resolve video URL. Status: " ++ toString st))
    else
      .chunks (iterContent stream_chunk_size body)

/-- Observable events of one request lifecycle, in order: filesystem
events on the server, and transport events as seen at the client side of
the connection. -/
inductive Event where
  | fileCreated (path : String)
  | fileDeleted (path : String)
  | errorResponseSent (status : Nat) (detail : String)
  | responseStarted (status : Nat)
  | bodyChunk (bytes : List Nat)
  | bodyCompleted
  | transferAborted
deriving DecidableEq

/-- Detail of the 400 raised for a missing or empty url parameter
(src/api/download.py line 119). -/
def urlRequiredMsg : String := "The \x27url\x27 query parameter is required."

/-- Detail of the 400 raised for a url without an http or https scheme
(src/api/download.py line 126). -/
def invalidFormatMsg : String := "Invalid URL format. Must start with http:// or https://."

/-- Detail of the generic 500 raised by the catch-all handler
(src/api/download.py line 159). -/
def genericFailureMsg : String :=
  "An unexpected error occurred during the download process. Please check the provided URL."

/-- Body sent by the Starlette server-error middleware when the
application raises after the handler returned but before any response
bytes were sent, as happens when FileResponse finds its file missing. -/
def serverErrorText : String := "Internal Server Error"

/-- Detail of the FastAPI validation response produced when a required
query parameter declared with Query(...) is absent: status 422 with a
field-required message. -/
def queryValidationDetail : String := "Field required"

/-- Environment of one request to /api/download: the raw url query
parameter, the extractor oracle, whether os.remove raises in the cleanup
block, and the bytes of the final file. -/
structure DownloadWorld where
  url : Option String
  outcome : ExtractionOutcome
  removeRaises : Bool
  fileBytes : List Nat

/-- Trace of one request to /api/download (src/api/download.py lines
107-170) including the transport phase after the handler returns.  The
handler validates the parameter, runs perform_download, and returns a
FileResponse; the finally block (lines 161-170) executes at the return
statement, before the ASGI server invokes the FileResponse, so a
successful os.remove deletes the file first, and the FileResponse then
fails its stat check and the server emits a plain 500; only when
os.remove raises (the error being swallowed) does the file survive long
enough to be streamed.  When perform_download raises, final_filepath is
still None, so the finally block deletes nothing and any partial files
remain. -/
def download_video_trace (w : DownloadWorld) : List Event :=
  match w.url with
  | none => [.errorResponseSent 400 urlRequiredMsg]
  | some u =>
    if u = "" then [.errorResponseSent 400 urlRequiredMsg]
    else if ¬ (py_startswith u "http://" = true ∨ py_startswith u "https://" = true) then
      [.errorResponseSent 400 invalidFormatMsg]
    else
      (filesAfter w.outcome).map Event.fileCreated ++
        match perform_download w.outcome with
        | .error _ => [.errorResponseSent 500 genericFailureMsg]
        | .ok p =>
          if w.removeRaises then
            [.responseStarted 200, .bodyChunk w.fileBytes, .bodyCompleted]
          else
            [.fileDeleted p, .errorResponseSent 500 serverErrorText]

/-- Environment of one request to /api/tiktok: the raw tiktok_url query
parameter and the upstream fetch oracle. -/
structure TiktokWorld where
  tiktok_url : Option String
  fetch : FetchOutcome

/-- Trace of one request to /api/tiktok (src/api/tiktok.py lines 57-91).
A missing required query parameter is rejected by FastAPI validation with
a 422 before the handler runs.  Otherwise the handler returns a
StreamingResponse wrapping the get_video_stream generator: the server
sends the 200 status and headers first and only then iterates the
generator, so an HTTPException raised inside it (bad upstream status or
request error) cannot change the status and instead aborts the transfer. -/
def tiktok_trace (w : TiktokWorld) : List Event :=
  match w.tiktok_url with
  | none => [.errorResponseSent 422 queryValidationDetail]
  | some _ =>
    Event.responseStarted 200 ::
      match get_video_stream w.fetch with
      | .httpError _ _ => [.transferAborted]
      | .chunks cs => cs.map Event.bodyChunk ++ [.bodyCompleted]

/-- Status code of the first response event of a trace, if any. -/
def firstStatus : List Event → Option Nat
  | [] => none
  | .errorResponseSent s _ :: _ => some s
  | .responseStarted s :: _ => some s
  | _ :: rest => firstStatus rest

/-- The part of a trace visible at the client: everything except the
server-side filesystem events. -/
def clientEvents (t : List Event) : List Event :=
  t.filter fun e =>
    match e with
    | .fileCreated _ => false
    | .fileDeleted _ => false
    | _ => true

/-- The error details actually delivered to the client over a trace: the
detail strings of the structured error responses sent, in order.  Events
after an aborted transfer or inside it carry no detail. -/
def deliveredErrorDetails (t : List Event) : List String :=
  t.filterMap fun e =>
    match e with
    | .errorResponseSent _ d => some d
    | _ => none

/-- Appending preserves the character data of strings. -/
theorem str_data_append (a b : String) : (a ++ b).data = a.data ++ b.data := by
  cases a
  cases b
  rfl

/-- A list is a Boolean prefix of itself followed by anything. -/
theorem isPrefixOf_self_append (l₁ l₂ : List Char) : l₁.isPrefixOf (l₁ ++ l₂) = true := by
  induction l₁ with
  | nil => simp [List.isPrefixOf]
  | cons a t ih => simp [List.isPrefixOf, ih]

/-- No slash survives in the suffix after the last slash. -/
theorem afterLastSlash_no_slash (l : List Char) : '/' ∉ afterLastSlash l := by
  induction l with
  | nil => simp [afterLastSlash]
  | cons c rest ih =>
    rw [afterLastSlash]
    split
    · exact ih
    · rename_i h
      push_neg at h
      simp [List.mem_cons]
      exact ⟨fun he => h.1 he.symm, h.2⟩

/-- The head of a list is a member of it. -/
theorem head?_mem_of_eq {α : Type} {l : List α} {a : α} (h : l.head? = some a) : a ∈ l := by
  cases l with
  | nil => simp [List.head?] at h
  | cons x xs =>
    simp [List.head?] at h
    simp [h]

/-- Joining onto a non-absolute second component yields a string starting
with the first component. -/
theorem py_join_startswith (a b : String) (hb : b.data.head? ≠ some '/') :
    py_startswith (py_join a b) a = true := by
  rw [py_join]
  rw [if_neg hb]
  split
  · rw [py_startswith, str_data_append]
    exact isPrefixOf_self_append _ _
  · rw [py_startswith, str_data_append, str_data_append]
    rw [List.append_assoc]
    exact isPrefixOf_self_append _ _

/-- The basename of any path does not begin with a slash. -/
theorem py_basename_head_ne_slash (p : String) :
    (py_basename p).data.head? ≠ some '/' := by
  intro h
  exact afterLastSlash_no_slash p.data (head?_mem_of_eq h)

/-- Splitting a body into chunks and concatenating them restores the
body (bounded-length version for induction). -/
theorem concat_iterContent_aux (cs : Nat) (hcs : cs ≠ 0) :
    ∀ (n : Nat) (body : List Nat), body.length ≤ n →
      concatChunks (iterContent cs body) = body := by
  intro n
  induction n with
  | zero =>
    intro body hb
    have : body = [] := List.eq_nil_of_length_eq_zero (Nat.le_zero.mp hb)
    subst this
    rw [iterContent]
    simp [concatChunks]
  | succ n ih =>
    intro body hb
    rw [iterContent]
    split
    · rename_i h
      rcases h with h | h
      · exact absurd h hcs
      · simp [h, concatChunks]
    · rename_i h
      push_neg at h
      rw [concatChunks]
      have hlen : (body.drop cs).length ≤ n := by
        rw [List.length_drop]
        have : 0 < cs := Nat.pos_of_ne_zero hcs
        omega
      rw [ih (body.drop cs) hlen]
      exact List.take_append_drop cs body

/-- Splitting a body into chunks and concatenating them restores the body. -/
theorem concat_iterContent (cs : Nat) (hcs : cs ≠ 0) (body : List Nat) :
    concatChunks (iterContent cs body) = body :=
  concat_iterContent_aux cs hcs body.length body le_rfl

/-- Chunks produced by iterContent are nonempty, bounded by the chunk
size, and full-size except possibly the last (bounded-length version). -/
theorem chunkSizesOk_iterContent_aux (cs : Nat) (hcs : cs ≠ 0) :
    ∀ (n : Nat) (body : List Nat), body.length ≤ n →
      chunkSizesOk cs (iterContent cs body) = true := by
  intro n
  induction n with
  | zero =>
    intro body hb
    have : body = [] := List.eq_nil_of_length_eq_zero (Nat.le_zero.mp hb)
    subst this
    rw [iterContent]
    simp [chunkSizesOk]
  | succ n ih =>
    intro body hb
    rw [iterContent]
    split
    · simp [chunkSizesOk]
    · rename_i h
      push_neg at h
      have hpos : 0 < body.length := List.length_pos.mpr h.2
      have hcpos : 0 < cs := Nat.pos_of_ne_zero hcs
      rw [chunkSizesOk]
      have hlen : (body.drop cs).length ≤ n := by
        rw [List.length_drop]
        omega
      rw [ih (body.drop cs) hlen]
      simp only [List.length_take, Bool.and_eq_true, Bool.or_eq_true,
        decide_eq_true_eq]
      refine ⟨⟨⟨?_, ?_⟩, ?_⟩, trivial⟩
      · omega
      · omega
      · by_cases hrest : body.length ≤ cs
        · left
          have : body.drop cs = [] := List.drop_eq_nil_of_le hrest
          rw [this, iterContent]
          simp
        · right
          omega

/-- C1: the claim that the temporary file is deleted exactly once and only
after the response body has been fully sent fails on the code.  On a
successful extraction with a working os.remove, the trace deletes the
file immediately after creation, before any response event, and no body
is ever completed; and when the extractor raises after creating a partial
file, that file is never deleted at all. -/
theorem c1_cleanup_not_after_body :
    download_video_trace
        ⟨some "https://t.co/v",
         .completes (some "/tmp/tiktok_dl_v.mp4") ["/tmp/tiktok_dl_v.mp4"],
         false, [9]⟩ =
      [Event.fileCreated "/tmp/tiktok_dl_v.mp4",
       Event.fileDeleted "/tmp/tiktok_dl_v.mp4",
       Event.errorResponseSent 500 serverErrorText] ∧
    Event.bodyCompleted ∉
      download_video_trace
        ⟨some "https://t.co/v",
         .completes (some "/tmp/tiktok_dl_v.mp4") ["/tmp/tiktok_dl_v.mp4"],
         false, [9]⟩ ∧
    download_video_trace
        ⟨some "https://t.co/v", .raises "boom" ["/tmp/part.mp4"], false, []⟩ =
      [Event.fileCreated "/tmp/part.mp4",
       Event.errorResponseSent 500 genericFailureMsg] ∧
    Event.fileDeleted "/tmp/part.mp4" ∉
      download_video_trace
        ⟨some "https://t.co/v", .raises "boom" ["/tmp/part.mp4"], false, []⟩ := by
  refine ⟨by decide, by decide, by decide, by decide⟩

/-- C2: the claim that an upstream non-200 status yields a 400 delivered
before any body bytes fails on the code.  With an upstream 404 the client
sees a 200 response start followed by an aborted transfer, and the
HTTPException actually raised inside the generator is a 500 embedding the
stringified inner 400, not a 400. -/
theorem c2_upstream_404_yields_200_then_abort :
    tiktok_trace ⟨some "https://t.co/v", .ok 404 []⟩ =
      [Event.responseStarted 200, Event.transferAborted] ∧
    firstStatus (tiktok_trace ⟨some "https://t.co/v", .ok 404 []⟩) = some 200 ∧
    get_video_stream (.ok 404 []) =
      .httpError 500
        "An unexpected internal error occurred: 400: Failed to resolve video URL. Status: 404" := by
  refine ⟨by decide, by decide, by decide⟩

/-- C3: the claim that distinct concurrent requests get distinct
temporary paths fails on the code.  The output template contains no
per-request token, only the video title and extension, so two distinct
requests for the same video resolve to the identical path. -/
theorem c3_temp_path_collision :
    (⟨0, "v", "mp4"⟩ : DlRequest) ≠ (⟨1, "v", "mp4"⟩ : DlRequest) ∧
    requestTempPath ⟨0, "v", "mp4"⟩ = requestTempPath ⟨1, "v", "mp4"⟩ ∧
    requestTempPath ⟨0, "v", "mp4"⟩ = "/tmp/tiktok_dl_v.mp4" ∧
    temp_outtmpl = "/tmp/tiktok_dl_%(title)s.%(ext)s" := by
  refine ⟨by decide, by decide, by decide, by decide⟩

/-- C4: the claim that both endpoints answer 400 when the URL parameter
is absent fails on the /api/tiktok endpoint: the required Query parameter
is rejected by FastAPI validation with status 422, not 400. -/
theorem c4_missing_param_tiktok_not_400 :
    firstStatus (tiktok_trace ⟨none, .ok 200 []⟩) = some 422 ∧
    firstStatus (tiktok_trace ⟨none, .ok 200 []⟩) ≠ some 400 := by
  refine ⟨by decide, by decide⟩

/-- C4 amended: a request to /api/download with the url parameter absent
is answered 400 with the stable required-parameter message, while a
request to /api/tiktok with the tiktok_url parameter absent is answered
422 by FastAPI validation. -/
theorem c4_missing_param_amended :
    ∀ (o : ExtractionOutcome) (rr : Bool) (fb : List Nat) (f : FetchOutcome),
      download_video_trace ⟨none, o, rr, fb⟩ =
        [Event.errorResponseSent 400 urlRequiredMsg] ∧
      tiktok_trace ⟨none, f⟩ =
        [Event.errorResponseSent 422 queryValidationDetail] := by
  intro o rr fb f
  exact ⟨rfl, rfl⟩

/-- C5: the claim that both endpoints answer 400 for a URL without an
http or https scheme fails on the /api/tiktok endpoint, which performs no
scheme validation at all: it starts a 200 streaming response whose
transfer then aborts. -/
theorem c5_tiktok_no_scheme_check :
    tiktok_trace ⟨some "not-a-url", .requestError "Invalid URL"⟩ =
      [Event.responseStarted 200, Event.transferAborted] ∧
    firstStatus (tiktok_trace ⟨some "not-a-url", .requestError "Invalid URL"⟩) ≠
      some 400 := by
  refine ⟨by decide, by decide⟩

/-- C5 amended: on /api/download every request whose url parameter does
not start with http:// or https:// is answered 400 before any extraction
work; /api/tiktok applies no such validation. -/
theorem c5_download_scheme_check (u : String)
    (h : ¬ (py_startswith u "http://" = true ∨ py_startswith u "https://" = true))
    (o : ExtractionOutcome) (rr : Bool) (fb : List Nat) :
    ∃ d, download_video_trace ⟨some u, o, rr, fb⟩ = [Event.errorResponseSent 400 d] := by
  by_cases hu : u = ""
  · exact ⟨urlRequiredMsg, by simp [download_video_trace, hu]⟩
  · refine ⟨invalidFormatMsg, ?_⟩
    simp only [download_video_trace]
    rw [if_neg hu, if_pos h]

/-- C5 witness: the non-scheme URL ftp://x is answered 400 by
/api/download. -/
theorem c5_download_scheme_check_witness :
    ∃ d, download_video_trace ⟨some "ftp://x", .completes none [], false, []⟩ =
      [Event.errorResponseSent 400 d] :=
  c5_download_scheme_check "ftp://x" (by decide) (.completes none []) false []

/-- Trace of a /api/download request whose extraction raises: the partial
files appear, then the fixed generic 500 is delivered; the detail does
not mention the exception text. -/
theorem download_raises_trace (u : String)
    (h : py_startswith u "http://" = true ∨ py_startswith u "https://" = true)
    (m : String) (fs : List String) (rr : Bool) (fb : List Nat) :
    download_video_trace ⟨some u, .raises m fs, rr, fb⟩ =
      fs.map Event.fileCreated ++ [Event.errorResponseSent 500 genericFailureMsg] := by
  have hu : u ≠ "" := by
    intro he
    subst he
    rcases h with h | h <;> simp [py_startswith, List.isPrefixOf] at h
  simp only [download_video_trace]
  rw [if_neg hu, if_neg (not_not_intro h)]
  rfl

/-- File-creation events contribute no delivered error details. -/
theorem deliveredErrorDetails_fileCreated_append (fs : List String) (l : List Event) :
    deliveredErrorDetails (fs.map Event.fileCreated ++ l) = deliveredErrorDetails l := by
  induction fs with
  | nil => rfl
  | cons a t ih =>
    simp only [List.map_cons, List.cons_append, deliveredErrorDetails,
      List.filterMap_cons] at ih ⊢
    exact ih

/-- C6: the claim that every downstream failure delivers a fixed generic
error message to the client fails on the /api/tiktok relay: at a failing
upstream fetch, and likewise at an upstream 404, the client receives no
error message at all — only the 200 response start followed by an
aborted transfer, with no error detail event in the client view. -/
theorem c6_relay_failure_delivers_no_error_detail :
    tiktok_trace ⟨some "https://t.co/v", .requestError "connection reset by peer"⟩ =
      [Event.responseStarted 200, Event.transferAborted] ∧
    deliveredErrorDetails
      (tiktok_trace ⟨some "https://t.co/v", .requestError "connection reset by peer"⟩) = [] ∧
    deliveredErrorDetails (tiktok_trace ⟨some "https://t.co/v", .ok 404 []⟩) = [] := by
  refine ⟨by decide, by decide, by decide⟩

/-- C6 amended: on /api/download a downstream failure delivers exactly
the fixed generic 500 detail, the same whatever the internal exception
text; on /api/tiktok a relay failure delivers no error detail at all and
the client-visible events are identical for any two internal exception
texts — so no client-visible error detail ever depends on or contains the
internal exception text. -/
theorem c6_client_error_details (u : String)
    (h : py_startswith u "http://" = true ∨ py_startswith u "https://" = true)
    (m m2 : String) (fs : List String) (rr : Bool) (fb : List Nat) :
    deliveredErrorDetails (download_video_trace ⟨some u, .raises m fs, rr, fb⟩) =
      [genericFailureMsg] ∧
    deliveredErrorDetails (download_video_trace ⟨some u, .raises m2 fs, rr, fb⟩) =
      [genericFailureMsg] ∧
    clientEvents (tiktok_trace ⟨some u, .requestError m⟩) =
      clientEvents (tiktok_trace ⟨some u, .requestError m2⟩) ∧
    deliveredErrorDetails (tiktok_trace ⟨some u, .requestError m⟩) = [] := by
  refine ⟨?_, ?_, rfl, rfl⟩
  · rw [download_raises_trace u h m fs rr fb, deliveredErrorDetails_fileCreated_append]
    rfl
  · rw [download_raises_trace u h m2 fs rr fb, deliveredErrorDetails_fileCreated_append]
    rfl

/-- C6 witness: two extraction failures differing only in their internal
exception text both deliver the same fixed generic detail on
/api/download, and two relay failures differing only in that text are
indistinguishable to the client on /api/tiktok, which delivers no error
detail. -/
theorem c6_client_error_details_witness :
    deliveredErrorDetails (download_video_trace
        ⟨some "https://t.co/v", .raises "boom one" ["/tmp/p.mp4"], false, []⟩) =
      [genericFailureMsg] ∧
    deliveredErrorDetails (download_video_trace
        ⟨some "https://t.co/v", .raises "boom two" ["/tmp/p.mp4"], false, []⟩) =
      [genericFailureMsg] ∧
    clientEvents (tiktok_trace ⟨some "https://t.co/v", .requestError "boom one"⟩) =
      clientEvents (tiktok_trace ⟨some "https://t.co/v", .requestError "boom two"⟩) ∧
    deliveredErrorDetails
      (tiktok_trace ⟨some "https://t.co/v", .requestError "boom one"⟩) = [] :=
  c6_client_error_details "https://t.co/v" (Or.inr (by decide)) "boom one" "boom two"
    ["/tmp/p.mp4"] false []

/-- C7: every nonempty filepath reported by the extractor is captured by
the post-processor as a name starting with the designated temporary
directory; a reported path that does not start with that directory is
rewritten to the directory joined with its basename. -/
theorem c7_filename_confined (directory : String) (prev : Option String) (p : String)
    (hp : p ≠ "") :
    ∃ q, filenameCaptureRun directory prev (some p) = some q ∧
      py_startswith q directory = true ∧
      (py_startswith p directory = false → q = py_join directory (py_basename p)) := by
  have h1 : filenameCaptureRun directory prev (some p) =
      (if p ≠ "" ∧ py_startswith p directory = false then
        some (py_join directory (py_basename p)) else some p) := by
    simp only [filenameCaptureRun]
    rw [if_neg hp]
  by_cases hs : py_startswith p directory = false
  · refine ⟨py_join directory (py_basename p), ?_, ?_, fun _ => rfl⟩
    · rw [h1, if_pos ⟨hp, hs⟩]
    · exact py_join_startswith directory (py_basename p) (py_basename_head_ne_slash p)
  · have hs' : py_startswith p directory = true := by
      cases hb : py_startswith p directory
      · exact absurd hb hs
      · rfl
    refine ⟨p, ?_, hs', fun hcon => absurd hcon hs⟩
    rw [h1, if_neg (fun hc => hs hc.2)]

/-- C7 witness: a path reported outside /tmp is rewritten into /tmp using
its basename. -/
theorem c7_filename_confined_witness :
    ∃ q, filenameCaptureRun "/tmp" none (some "/home/user/v.mp4") = some q ∧
      py_startswith q "/tmp" = true ∧
      (py_startswith "/home/user/v.mp4" "/tmp" = false →
        q = py_join "/tmp" (py_basename "/home/user/v.mp4")) :=
  c7_filename_confined "/tmp" none "/home/user/v.mp4" (by decide)

/-- C8: the stream relay issues its upstream GET with streaming enabled
and a 30 second timeout, and on a 200 it yields the body as consecutive
chunks of 8192 bytes (the last possibly shorter) whose concatenation is
exactly the body. -/
theorem c8_stream_relay_chunks :
    ∀ (url : String) (body : List Nat),
      (stream_request url).stream = true ∧
      (stream_request url).timeout = 30 ∧
      stream_chunk_size = 8192 ∧
      get_video_stream (.ok 200 body) = .chunks (iterContent stream_chunk_size body) ∧
      concatChunks (iterContent stream_chunk_size body) = body ∧
      chunkSizesOk stream_chunk_size (iterContent stream_chunk_size body) = true := by
  intro url body
  refine ⟨rfl, rfl, rfl, ?_, ?_, ?_⟩
  · simp [get_video_stream]
  · exact concat_iterContent stream_chunk_size (by decide) body
  · exact chunkSizesOk_iterContent_aux stream_chunk_size (by decide) body.length body le_rfl

/-- C9: the claim that a failing cleanup leaves the client-visible
outcome identical to a successful cleanup fails on the code.  Because the
deletion runs before the FileResponse is sent, a raising os.remove lets
the client receive the full 200 body, while a successful os.remove makes
the body send fail with a 500: the two client views differ. -/
theorem c9_cleanup_failure_changes_outcome :
    clientEvents (download_video_trace
        ⟨some "https://t.co/v", .completes (some "/tmp/a.mp4") ["/tmp/a.mp4"], true, [5]⟩) =
      [Event.responseStarted 200, Event.bodyChunk [5], Event.bodyCompleted] ∧
    clientEvents (download_video_trace
        ⟨some "https://t.co/v", .completes (some "/tmp/a.mp4") ["/tmp/a.mp4"], false, [5]⟩) =
      [Event.errorResponseSent 500 serverErrorText] ∧
    clientEvents (download_video_trace
        ⟨some "https://t.co/v", .completes (some "/tmp/a.mp4") ["/tmp/a.mp4"], true, [5]⟩) ≠
      clientEvents (download_video_trace
        ⟨some "https://t.co/v", .completes (some "/tmp/a.mp4") ["/tmp/a.mp4"], false, [5]⟩) := by
  refine ⟨by decide, by decide, by decide⟩

/-- C10: whenever perform_download returns a path instead of raising,
that path is exactly the one captured by the post-processor, it is
truthy, and a file exists at it; hence a missing capture or a missing
file always raises. -/
theorem c10_perform_download_returns_existing_captured (o : ExtractionOutcome) (p : String)
    (h : perform_download o = Except.ok p) :
    capturedFilename o = some p ∧ p ∈ filesAfter o ∧ p ≠ "" := by
  cases o with
  | raises msg fs => simp [perform_download] at h
  | completes c fs =>
    cases c with
    | none => simp [perform_download] at h
    | some q =>
      simp only [perform_download] at h
      by_cases hq : q = "" ∨ q ∉ fs
      · rw [if_pos hq] at h
        simp at h
      · rw [if_neg hq] at h
        push_neg at hq
        injection h with h'
        subst h'
        exact ⟨rfl, hq.2, hq.1⟩

/-- C10 witness: a completed extraction that captured an existing file
returns that very path. -/
theorem c10_perform_download_witness :
    capturedFilename (.completes (some "/tmp/a.mp4") ["/tmp/a.mp4"]) = some "/tmp/a.mp4" ∧
    "/tmp/a.mp4" ∈ filesAfter (.completes (some "/tmp/a.mp4") ["/tmp/a.mp4"]) ∧
    "/tmp/a.mp4" ≠ "" :=
  c10_perform_download_returns_existing_captured _ _ (by rfl)
